import Mathlib

/-!
Verification of the TeXLive installer helper (scripts/texlive.py).

The script is a thin orchestration layer: URL resolution and cache-buster
handling are pure string functions, and the install operation is a linear
fallback chain over external effects (subprocess invocation, filesystem
probing, symlink creation).  The pure functions are embedded directly; the
effectful parts are embedded as functions over an explicit environment of
oracle outcomes (what each subprocess invocation / filesystem probe would
return), with the destination directory of the symlink fixer modelled as an
explicit association-list state.
-/

namespace TexliveScript

/-! ### String utilities -/

/-- Python `s.rstrip("/")`: remove every trailing `/` character. -/
def rstripSlashes (s : String) : String :=
  ⟨(s.data.reverse.dropWhile (fun c => c == '/')).reverse⟩

/-- A string of `k` slash characters (used to state trailing-slash invariance). -/
def slashes (k : Nat) : String :=
  ⟨List.replicate k '/'⟩

/-! ### URL resolution (`append_cache_buster`, `download_installer`) -/

/-- Embedding of `append_cache_buster(url, token)`:
`if not token or token == "0": return url` then
`return f"{url}{'&' if '?' in url else '?'}ts={token}"`. -/
def append_cache_buster (url token : String) : String :=
  if token = "" ∨ token = "0" then url
  else if '?' ∈ url.data then url ++ "&ts=" ++ token
  else url ++ "?ts=" ++ token

/-- Embedding of the URL computation inside `download_installer`:
the branch on `version == "latest"`, then `append_cache_buster`. -/
def resolve_download_url (version archive_name mirror archive_mirror cache_buster : String) :
    String :=
  let url :=
    if version = "latest" then rstripSlashes mirror ++ "/" ++ archive_name
    else rstripSlashes archive_mirror ++ "/" ++ version ++ "/tlnet-final/" ++ archive_name
  append_cache_buster url cache_buster

/-! ### Process runner (`run_subprocess`) -/

/-- The outcome of attempting to execute one external command: the executable
is absent (`FileNotFoundError`), or the process ran and exited with a code and
captured output streams. -/
inductive ProcOutcome where
  | notFound
  | exited (code : Nat) (out err : String)
deriving DecidableEq, Repr

/-- The value `subprocess.run` returns on the paths where it does not raise:
return code plus captured stdout/stderr (captured only when piped). -/
structure CompletedProc where
  returncode : Nat
  procOut : Option String
  procErr : Option String
deriving DecidableEq, Repr

/-- Embedding of `run_subprocess(args, check=..., suppress_output=...)`.
`Except.error c` models `raise SystemExit(c)`.  `subprocess.run` raises
`CalledProcessError` exactly when `check` is set and the exit code is
non-zero, mapped to `SystemExit(returncode)`; `FileNotFoundError` is mapped
to `SystemExit(1)`; otherwise the completed process is returned, with output
captured when suppression was requested. -/
def run_subprocess (o : ProcOutcome) (check suppress : Bool) : Except Nat CompletedProc :=
  match o with
  | .notFound => .error 1
  | .exited code out err =>
    if check && code != 0 then .error code
    else .ok ⟨code, if suppress then some out else none, if suppress then some err else none⟩

/-- Embedding of `check_path()`: run `tex --version` with `check=True`,
`suppress_output=True`; a raised `SystemExit` is caught and yields `False`. -/
def check_path (o : ProcOutcome) : Bool :=
  match run_subprocess o true true with
  | .ok _ => true
  | .error _ => false

/-- Embedding of `tlmgr_path_add(bin_dir)`: run `tlmgr path add` with
`check=False`; a raised `SystemExit` is caught and yields `False`, any
normal return yields `True`. -/
def tlmgr_path_add (o : ProcOutcome) : Bool :=
  match run_subprocess o false false with
  | .ok _ => true
  | .error _ => false

/-! ### Installer entry-point location (`locate_install_tl`) -/

/-- Embedding of `locate_install_tl(workdir)`.  `direct` models
`(workdir / "install-tl").is_file()`, `nested` models
`(workdir / "install-tl" / "install-tl").is_file()`; failure raises
`SystemExit(1)`. -/
def locate_install_tl (workdir : String) (direct nested : Bool) : Except Nat String :=
  if direct then .ok (workdir ++ "/install-tl")
  else if nested then .ok (workdir ++ "/install-tl/install-tl")
  else .error 1

/-! ### Binary-directory discovery (`iter_candidate_bin_dirs`,
`resolve_texlive_bin_dir`) -/

/-- One architecture directory under a `bin` folder: its name and whether
`(arch_dir / "tex").is_file()`. -/
structure ArchDir where
  name : String
  hasTex : Bool
deriving DecidableEq, Repr

/-- One entry of a TeXLive root directory: its name, whether
`(entry / "bin").is_dir()`, and the architecture directories enumerated
under `bin` (in filesystem enumeration order). -/
structure VersionEntry where
  name : String
  binIsDir : Bool
  archDirs : List ArchDir
deriving DecidableEq, Repr

/-- A known TeXLive root: whether `root.exists()` and its entries in
filesystem enumeration order (before sorting). -/
structure RootDir where
  present : Bool
  entries : List VersionEntry
deriving DecidableEq, Repr

/-- The fixed ordered tuple `KNOWN_TEXLIVE_ROOTS`. -/
def KNOWN_TEXLIVE_ROOTS : List String :=
  ["/usr/local/texlive", "/opt/texlive"]

/-- `sorted(root.iterdir(), reverse=True)`: stable descending sort of the
entries by name. -/
def sortedEntriesDesc (es : List VersionEntry) : List VersionEntry :=
  es.mergeSort (fun a b => b.name ≤ a.name)

/-- Candidates contributed by one version entry: nothing unless
`(entry / "bin").is_dir()`, else each architecture directory whose `tex`
probe binary is a file, in enumeration order. -/
def candidatesInEntry (rootPath : String) (e : VersionEntry) : List String :=
  if e.binIsDir then
    e.archDirs.filterMap fun a =>
      if a.hasTex then some (rootPath ++ "/" ++ e.name ++ "/bin/" ++ a.name) else none
  else []

/-- Candidates contributed by one root: nothing unless the root exists, else
the per-entry candidates with entries taken in reverse-sorted order. -/
def candidatesInRoot (rootPath : String) (r : RootDir) : List String :=
  if r.present then (sortedEntriesDesc r.entries).flatMap (candidatesInEntry rootPath) else []

/-- Embedding of `iter_candidate_bin_dirs()` over a filesystem oracle `fs`
giving each root's contents: the candidates yielded, in order. -/
def iter_candidate_bin_dirs (fs : String → RootDir) : List String :=
  KNOWN_TEXLIVE_ROOTS.flatMap fun rootPath => candidatesInRoot rootPath (fs rootPath)

/-- Embedding of `resolve_texlive_bin_dir()`: the first candidate of the
scan if any, else the result of `bin_dir_from_tlmgr()` (the vendor-tool
strategy, abstracted as an oracle since the claims treat it opaquely). -/
def resolve_texlive_bin_dir (fs : String → RootDir) (tlmgrResult : Option String) :
    Option String :=
  match iter_candidate_bin_dirs fs with
  | c :: _ => some c
  | [] => tlmgrResult

/-! ### Symlink fixer (`symlink_binaries`) -/

/-- One entry of the source binary directory as enumerated by
`bin_dir.iterdir()`: its name and whether `binary.is_file()`. -/
structure SrcEntry where
  name : String
  isFile : Bool
deriving DecidableEq, Repr

/-- What a name in the destination directory can currently denote.  A broken
symlink has `exists() = False` but `is_symlink() = True`; the code unlinks in
either case. -/
inductive DestEntry where
  | file
  | dirEntry
  | symlink (target : String)
  | brokenSymlink
deriving DecidableEq, Repr

/-- The state of the destination directory: whether it exists and the
association of names to entries. -/
structure DestState where
  destExists : Bool
  entries : List (String × DestEntry)
deriving DecidableEq, Repr

/-- Look up the entry currently stored under a name. -/
def lookupEntry (d : DestState) (n : String) : Option DestEntry :=
  d.entries.lookup n

/-- `target.unlink()` (if present) followed by `os.symlink(...)`: the name is
re-bound to the new entry, any previous binding removed. -/
def setEntry (d : DestState) (n : String) (v : DestEntry) : DestState :=
  { d with entries := (n, v) :: d.entries.filter (fun p => p.1 != n) }

/-- The loop body of `symlink_binaries`: skip non-files; for each file,
either the OS-level link attempt fails (`OSError`, leaving `success = False`
and continuing) or the destination name is re-bound to a fresh symlink
pointing at the source file. -/
def symlinkLoop (binDir : String) (fail : String → Bool) :
    List SrcEntry → Bool → DestState → Bool × DestState
  | [], success, dest => (success, dest)
  | e :: rest, success, dest =>
    if e.isFile then
      if fail e.name then symlinkLoop binDir fail rest false dest
      else
        symlinkLoop binDir fail rest success
          (setEntry dest e.name (.symlink (binDir ++ "/" ++ e.name)))
    else symlinkLoop binDir fail rest success dest

/-- Embedding of `symlink_binaries(bin_dir, destination)`:
`destination.mkdir(parents=True, exist_ok=True)`, then the loop over the
source entries with `success` initially `True`. -/
def symlink_binaries (binDir : String) (entries : List SrcEntry) (fail : String → Bool)
    (dest : DestState) : Bool × DestState :=
  symlinkLoop binDir fail entries true { dest with destExists := true }

/-! ### Installer driver (`run_install`) -/

/-- The argument list built for the installer invocation:
`["perl", installer, "--profile=...", "--location=<mirror>/"]`, plus
`--repository=<archive>/<version>/tlnet-final` when the version is not
`"latest"`. -/
def installerArgsFor (version profile mirror archive_mirror installerPath : String) :
    List String :=
  let mirror_url := rstripSlashes mirror ++ "/"
  let base := ["perl", installerPath, "--profile=" ++ profile, "--location=" ++ mirror_url]
  if version ≠ "latest" then
    base ++ ["--repository=" ++ (rstripSlashes archive_mirror ++ "/" ++ version ++ "/tlnet-final")]
  else base

/-- The `tex --version` probe command line. -/
def texCmd : List String := ["tex", "--version"]

/-- The `tlmgr path add` command line. -/
def tlmgrAddCmd : List String := ["tlmgr", "path", "add"]

/-- The environment of oracle outcomes a `run_install` invocation consumes,
in the order the code would consult them: the two `is_file` probes of
`locate_install_tl`, the installer subprocess outcome, the first PATH probe,
the discovery filesystem and the vendor-tool fallback result, the
`tlmgr path add` outcome, the second PATH probe, the listing of the resolved
binary directory together with the per-name link-failure oracle and the
initial destination state, and the third PATH probe. -/
structure InstallEnv where
  directInstallTl : Bool
  nestedInstallTl : Bool
  installerOutcome : ProcOutcome
  probe1 : ProcOutcome
  fs : String → RootDir
  tlmgrBinDir : Option String
  tlmgrAddOutcome : ProcOutcome
  probe2 : ProcOutcome
  srcEntries : List SrcEntry
  linkFail : String → Bool
  dest : DestState
  probe3 : ProcOutcome

/-- What a `run_install` invocation produces: process success or
`SystemExit(code)`, the trace of subprocess argument lists invoked directly
by the driver, and the final destination-directory state. -/
inductive RunResult where
  | success
  | exit (code : Nat)
deriving DecidableEq, Repr

/-- Result record of `run_install`. -/
structure InstallOutcome where
  result : RunResult
  trace : List (List String)
  dest : DestState
deriving DecidableEq, Repr

/-- The manual symlink fallback step of `run_install`:
`if symlink_binaries(bin_dir, SYMLINK_DESTINATION) and check_path(): return`
then `raise SystemExit(1)`.  The probe only runs if linking reported
success. -/
def symlinkStage (env : InstallEnv) (binDir : String) (trace : List (List String)) :
    InstallOutcome :=
  let r := symlink_binaries binDir env.srcEntries env.linkFail env.dest
  if r.1 then
    if check_path env.probe3 then ⟨.success, trace ++ [texCmd], r.2⟩
    else ⟨.exit 1, trace ++ [texCmd], r.2⟩
  else ⟨.exit 1, trace, r.2⟩

/-- Embedding of `run_install(version, profile, mirror, archive_mirror,
workdir)`: locate the installer (fatal if absent), invoke it (fatal on
failure), then the probe / vendor path-add / manual symlink fallback
chain. -/
def run_install (version profile mirror archive_mirror workdir : String) (env : InstallEnv) :
    InstallOutcome :=
  match locate_install_tl workdir env.directInstallTl env.nestedInstallTl with
  | .error c => ⟨.exit c, [], env.dest⟩
  | .ok installer =>
    let args := installerArgsFor version profile mirror archive_mirror installer
    match run_subprocess env.installerOutcome true false with
    | .error c => ⟨.exit c, [args], env.dest⟩
    | .ok _ =>
      if check_path env.probe1 then ⟨.success, [args, texCmd], env.dest⟩
      else
        match resolve_texlive_bin_dir env.fs env.tlmgrBinDir with
        | none => ⟨.exit 1, [args, texCmd], env.dest⟩
        | some binDir =>
          if tlmgr_path_add env.tlmgrAddOutcome then
            if check_path env.probe2 then
              ⟨.success, [args, texCmd, tlmgrAddCmd, texCmd], env.dest⟩
            else symlinkStage env binDir [args, texCmd, tlmgrAddCmd, texCmd]
          else symlinkStage env binDir [args, texCmd, tlmgrAddCmd]

/-! ### Helper lemmas on the string utilities -/

theorem mk_append (a b : List Char) : String.mk a ++ String.mk b = String.mk (a ++ b) :=
  rfl

theorem dropWhile_slash_replicate (k : Nat) (xs : List Char) :
    List.dropWhile (fun c => c == '/') (List.replicate k '/' ++ xs) =
      List.dropWhile (fun c => c == '/') xs := by
  induction k with
  | zero => rfl
  | succ n ih => simp [List.replicate_succ, List.dropWhile, ih]

theorem rstripSlashes_append_slashes (s : String) (k : Nat) :
    rstripSlashes (s ++ slashes k) = rstripSlashes s := by
  cases s with
  | mk d =>
    show rstripSlashes ⟨d ++ List.replicate k '/'⟩ = rstripSlashes ⟨d⟩
    simp [rstripSlashes, List.reverse_append, List.reverse_replicate,
      dropWhile_slash_replicate]

/-! ### Claim theorems: URL resolution -/

/-- C1: for every version string, mirror configuration and archive filename,
the resolved download URL is the primary mirror root (the configured mirror
with trailing slashes stripped) joined with `/` and the archive filename when
the version is the literal `"latest"`, and the archive mirror root joined
with `/` + version + `/tlnet-final/` + archive filename otherwise; in both
cases the cache-buster is appended afterwards.  The resolution is a total
pure string function. -/
theorem c1_url_resolution (v an m am cb : String) :
    (v = "latest" →
      resolve_download_url v an m am cb =
        append_cache_buster (rstripSlashes m ++ "/" ++ an) cb) ∧
    (v ≠ "latest" →
      resolve_download_url v an m am cb =
        append_cache_buster (rstripSlashes am ++ "/" ++ v ++ "/tlnet-final/" ++ an) cb) := by
  constructor
  · intro h; simp [resolve_download_url, h]
  · intro h; simp [resolve_download_url, h]

theorem c1_url_resolution_witness :
    resolve_download_url "latest" "install-tl-unx.tar.gz" "https://m.example/tlnet/" "x" "7" =
      append_cache_buster
        (rstripSlashes "https://m.example/tlnet/" ++ "/" ++ "install-tl-unx.tar.gz") "7" ∧
    resolve_download_url "2023" "install-tl-unx.tar.gz" "x" "ftp://a.example/historic" "0" =
      append_cache_buster
        (rstripSlashes "ftp://a.example/historic" ++ "/" ++ "2023" ++ "/tlnet-final/" ++
          "install-tl-unx.tar.gz") "0" :=
  ⟨(c1_url_resolution "latest" "install-tl-unx.tar.gz" "https://m.example/tlnet/" "x" "7").1
      rfl,
   (c1_url_resolution "2023" "install-tl-unx.tar.gz" "x" "ftp://a.example/historic" "0").2
      (by decide)⟩

/-- C2: `append_cache_buster u t` returns `u` unchanged when `t` is empty or
`"0"`; otherwise it returns `u ++ "&ts=" ++ t` when `u` already contains the
character `?`, and `u ++ "?ts=" ++ t` when it does not. -/
theorem c2_append_cache_buster (u t : String) :
    ((t = "" ∨ t = "0") → append_cache_buster u t = u) ∧
    (t ≠ "" → t ≠ "0" →
      ('?' ∈ u.data → append_cache_buster u t = u ++ "&ts=" ++ t) ∧
      ('?' ∉ u.data → append_cache_buster u t = u ++ "?ts=" ++ t)) := by
  refine ⟨fun h => by simp [append_cache_buster, h],
    fun h1 h2 => ⟨fun hc => ?_, fun hc => ?_⟩⟩
  · simp [append_cache_buster, h1, h2, hc]
  · simp [append_cache_buster, h1, h2, hc]

theorem c2_append_cache_buster_witness :
    append_cache_buster "https://e/x.tar.gz" "0" = "https://e/x.tar.gz" ∧
    append_cache_buster "https://e/x.tar.gz?x=1" "abc" =
      "https://e/x.tar.gz?x=1" ++ "&ts=" ++ "abc" ∧
    append_cache_buster "https://e/x.tar.gz" "abc" =
      "https://e/x.tar.gz" ++ "?ts=" ++ "abc" :=
  ⟨(c2_append_cache_buster "https://e/x.tar.gz" "0").1 (Or.inr rfl),
   ((c2_append_cache_buster "https://e/x.tar.gz?x=1" "abc").2 (by decide) (by decide)).1
      (by decide),
   ((c2_append_cache_buster "https://e/x.tar.gz" "abc").2 (by decide) (by decide)).2
      (by decide)⟩

/-- C10: URL resolution and installer-argument construction are invariant
under trailing slashes in the configured mirror URLs: appending any number of
`/` characters to the mirror or archive-mirror value changes neither the
resolved download URL nor the `--location` / `--repository` arguments,
because trailing slashes are stripped before joining. -/
theorem c10_trailing_slash_invariance (m am v an cb p ip : String) (j k : Nat) :
    resolve_download_url v an (m ++ slashes j) (am ++ slashes k) cb =
      resolve_download_url v an m am cb ∧
    installerArgsFor v p (m ++ slashes j) (am ++ slashes k) ip =
      installerArgsFor v p m am ip := by
  constructor
  · simp [resolve_download_url, rstripSlashes_append_slashes]
  · simp [installerArgsFor, rstripSlashes_append_slashes]

/-! ### Helper lemmas on the destination-directory state -/

theorem lookup_filter_ne (n m : String) (l : List (String × DestEntry)) (h : m ≠ n) :
    (l.filter (fun p => p.1 != n)).lookup m = l.lookup m := by
  have hmn : (m == n) = false := by simp [h]
  induction l with
  | nil => rfl
  | cons p t ih =>
    by_cases hp : p.1 = n
    · have h1 : (p.1 != n) = false := by simp [hp]
      have h2 : (m == p.1) = false := by rw [hp]; exact hmn
      simp [List.filter_cons, List.lookup, h1, h2, ih]
    · have h1 : (p.1 != n) = true := by simp [hp]
      by_cases hmp : m = p.1
      · have h2 : (m == p.1) = true := by simp [hmp]
        simp [List.filter_cons, List.lookup, h1, h2]
      · have h2 : (m == p.1) = false := by simp [hmp]
        simp [List.filter_cons, List.lookup, h1, h2, ih]

theorem lookupEntry_setEntry_self (d : DestState) (n : String) (v : DestEntry) :
    lookupEntry (setEntry d n v) n = some v := by
  simp [lookupEntry, setEntry, List.lookup]

theorem lookupEntry_setEntry_ne (d : DestState) (n m : String) (v : DestEntry) (h : m ≠ n) :
    lookupEntry (setEntry d n v) m = lookupEntry d m := by
  have hmn : (m == n) = false := by simp [h]
  simp [lookupEntry, setEntry, List.lookup, hmn, lookup_filter_ne n m d.entries h]

theorem symlinkLoop_destExists (binDir : String) (fail : String → Bool)
    (entries : List SrcEntry) (s : Bool) (dest : DestState) :
    (symlinkLoop binDir fail entries s dest).2.destExists = dest.destExists := by
  induction entries generalizing s dest with
  | nil => rfl
  | cons e t ih =>
    by_cases hf : e.isFile = true
    · by_cases hx : fail e.name = true
      · simp [symlinkLoop, hf, hx, ih]
      · simp [symlinkLoop, hf, hx, ih, setEntry]
    · simp [symlinkLoop, hf, ih]

theorem symlinkLoop_success (binDir : String) (fail : String → Bool)
    (entries : List SrcEntry) (s : Bool) (dest : DestState) :
    (symlinkLoop binDir fail entries s dest).1 =
      (s && entries.all fun e => !e.isFile || !fail e.name) := by
  induction entries generalizing s dest with
  | nil => simp [symlinkLoop]
  | cons e t ih =>
    by_cases hf : e.isFile = true <;> by_cases hx : fail e.name = true <;>
      simp [symlinkLoop, hf, hx, ih, List.all_cons, Bool.and_assoc]

theorem symlinkLoop_lookup_untouched (binDir : String) (fail : String → Bool)
    (entries : List SrcEntry) (s : Bool) (dest : DestState) (n : String)
    (h : ∀ e ∈ entries, e.isFile = true → e.name ≠ n) :
    lookupEntry (symlinkLoop binDir fail entries s dest).2 n = lookupEntry dest n := by
  induction entries generalizing s dest with
  | nil => rfl
  | cons e t ih =>
    have he := h e (List.mem_cons_self e t)
    have ht : ∀ x ∈ t, x.isFile = true → x.name ≠ n :=
      fun x hx => h x (List.mem_cons_of_mem e hx)
    by_cases hf : e.isFile = true
    · by_cases hx : fail e.name = true
      · simp only [symlinkLoop, hf, hx, if_true]
        exact ih false dest ht
      · have hx' : fail e.name = false := by simpa using hx
        rw [show symlinkLoop binDir fail (e :: t) s dest =
            symlinkLoop binDir fail t s
              (setEntry dest e.name (.symlink (binDir ++ "/" ++ e.name))) from by
          simp [symlinkLoop, hf, hx']]
        rw [ih s _ ht, lookupEntry_setEntry_ne]
        exact fun hne => (he hf) hne.symm
    · simp only [symlinkLoop, hf, if_false]
      exact ih s dest ht

theorem symlinkLoop_lookup_written (binDir : String) (fail : String → Bool)
    (entries : List SrcEntry) (s : Bool) (dest : DestState) (n : String)
    (hn : fail n = false) (h : ∃ e ∈ entries, e.isFile = true ∧ e.name = n) :
    lookupEntry (symlinkLoop binDir fail entries s dest).2 n =
      some (.symlink (binDir ++ "/" ++ n)) := by
  induction entries generalizing s dest with
  | nil => rcases h with ⟨e, he, _⟩; cases he
  | cons e t ih =>
    by_cases hT : ∃ x ∈ t, x.isFile = true ∧ x.name = n
    · by_cases hf : e.isFile = true
      · by_cases hx : fail e.name = true
        · simp only [symlinkLoop, hf, hx, if_true]
          exact ih false dest hT
        · have hx' : fail e.name = false := by simpa using hx
          rw [show symlinkLoop binDir fail (e :: t) s dest =
              symlinkLoop binDir fail t s
                (setEntry dest e.name (.symlink (binDir ++ "/" ++ e.name))) from by
            simp [symlinkLoop, hf, hx']]
          exact ih s _ hT
      · simp only [symlinkLoop, hf, if_false]
        exact ih s dest hT
    · rcases h with ⟨x, hx_mem, hx_file, hx_name⟩
      rcases List.mem_cons.mp hx_mem with hxe | hxt
      · subst hxe
        have hfe : fail x.name = false := by rw [hx_name]; exact hn
        rw [show symlinkLoop binDir fail (x :: t) s dest =
            symlinkLoop binDir fail t s
              (setEntry dest x.name (.symlink (binDir ++ "/" ++ x.name))) from by
          simp [symlinkLoop, hx_file, hfe]]
        rw [symlinkLoop_lookup_untouched binDir fail t s _ n
          (fun y hy hyf hyn => hT ⟨y, hy, hyf, hyn⟩)]
        rw [← hx_name, lookupEntry_setEntry_self]
      · exact absurd ⟨x, hxt, hx_file, hx_name⟩ hT

/-! ### Claim theorems: symlink fixer -/

/-- C4: the symlink fixer marks the destination directory as created, and for
every regular file in the source directory it re-binds the destination name to
a fresh symbolic link to the source file (replacing any pre-existing file,
stale symlink or other entry of that name); names not belonging to any regular
source file — in particular non-regular-file entries of the source directory —
are left untouched.  With no OS-level failures it reports success. -/
theorem c4_symlink_fixer (binDir : String) (entries : List SrcEntry)
    (fail : String → Bool) (dest : DestState)
    (hok : ∀ e ∈ entries, e.isFile = true → fail e.name = false) :
    (symlink_binaries binDir entries fail dest).1 = true ∧
    (symlink_binaries binDir entries fail dest).2.destExists = true ∧
    (∀ e ∈ entries, e.isFile = true →
      lookupEntry (symlink_binaries binDir entries fail dest).2 e.name =
        some (.symlink (binDir ++ "/" ++ e.name))) ∧
    (∀ n, (∀ e ∈ entries, e.isFile = true → e.name ≠ n) →
      lookupEntry (symlink_binaries binDir entries fail dest).2 n = lookupEntry dest n) := by
  refine ⟨?_, ?_, ?_, ?_⟩
  · rw [symlink_binaries, symlinkLoop_success]
    simp only [Bool.true_and, List.all_eq_true]
    intro e he
    by_cases hf : e.isFile = true
    · simp [hf, hok e he hf]
    · simp [Bool.not_eq_true _ ▸ hf]
  · rw [symlink_binaries, symlinkLoop_destExists]
  · intro e he hf
    exact symlinkLoop_lookup_written binDir fail entries true _ e.name
      (hok e he hf) ⟨e, he, hf, rfl⟩
  · intro n hnone
    rw [symlink_binaries, symlinkLoop_lookup_untouched binDir fail entries true _ n hnone]
    rfl

theorem c4_symlink_fixer_witness :
    (symlink_binaries "/opt/texlive/2024/bin/x86" [⟨"a", true⟩, ⟨"b", true⟩, ⟨"man", false⟩]
        (fun _ => false) ⟨false, [("a", .brokenSymlink)]⟩).1 = true ∧
    lookupEntry (symlink_binaries "/opt/texlive/2024/bin/x86"
        [⟨"a", true⟩, ⟨"b", true⟩, ⟨"man", false⟩]
        (fun _ => false) ⟨false, [("a", .brokenSymlink)]⟩).2 "a" =
      some (.symlink ("/opt/texlive/2024/bin/x86" ++ "/" ++ "a")) ∧
    lookupEntry (symlink_binaries "/opt/texlive/2024/bin/x86"
        [⟨"a", true⟩, ⟨"b", true⟩, ⟨"man", false⟩]
        (fun _ => false) ⟨false, [("a", .brokenSymlink)]⟩).2 "man" =
      lookupEntry ⟨false, [("a", .brokenSymlink)]⟩ "man" :=
  have h := c4_symlink_fixer "/opt/texlive/2024/bin/x86"
    [⟨"a", true⟩, ⟨"b", true⟩, ⟨"man", false⟩]
    (fun _ => false) ⟨false, [("a", .brokenSymlink)]⟩ (by decide)
  ⟨h.1, h.2.2.1 ⟨"a", true⟩ (by decide) rfl, h.2.2.2 "man" (by decide)⟩

/-- C5: an OS-level failure while linking one binary does not abort the
fixer: every other regular file whose own link attempt does not fail is still
freshly linked, and the fixer returns `false` exactly when at least one
individual link attempt failed.  In that case, once the install operation has
reached the manual symlink fallback (first probe failed, a binary directory
was resolved, and the vendor path-add step fell through), it exits with
status 1 without consulting the final probe: the result is `exit 1` for every
possible outcome of the third probe. -/
theorem c5_partial_symlink_failure (binDir : String) (entries : List SrcEntry)
    (fail : String → Bool) (dest : DestState)
    (v p m am wd : String) (env : InstallEnv) (bd : String) :
    ((symlink_binaries binDir entries fail dest).1 = false ↔
      ∃ e ∈ entries, e.isFile = true ∧ fail e.name = true) ∧
    (∀ e ∈ entries, e.isFile = true → fail e.name = false →
      lookupEntry (symlink_binaries binDir entries fail dest).2 e.name =
        some (.symlink (binDir ++ "/" ++ e.name))) ∧
    ((∃ out err, env.installerOutcome = .exited 0 out err) →
      check_path env.probe1 = false →
      resolve_texlive_bin_dir env.fs env.tlmgrBinDir = some bd →
      (tlmgr_path_add env.tlmgrAddOutcome = false ∨ check_path env.probe2 = false) →
      (symlink_binaries bd env.srcEntries env.linkFail env.dest).1 = false →
      ∀ o, (run_install v p m am wd { env with probe3 := o }).result = .exit 1) := by
  refine ⟨?_, ?_, ?_⟩
  · rw [symlink_binaries, symlinkLoop_success]
    simp [List.all_eq_true]
  · intro e he hf hfe
    exact symlinkLoop_lookup_written binDir fail entries true _ e.name hfe ⟨e, he, hf, rfl⟩
  · rintro ⟨out, err, hio⟩ hp1 hres hfall hsym o
    rcases hfall with htl | hp2
    · cases hd : env.directInstallTl <;> cases hnn : env.nestedInstallTl <;>
        simp [run_install, locate_install_tl, hd, hnn, run_subprocess, hio, hp1, hres,
          htl, symlinkStage, hsym]
    · cases hd : env.directInstallTl <;> cases hnn : env.nestedInstallTl <;>
        cases htl : tlmgr_path_add env.tlmgrAddOutcome <;>
        simp [run_install, locate_install_tl, hd, hnn, run_subprocess, hio, hp1, hres,
          htl, hp2, symlinkStage, hsym]

/-- Environment used to exercise the fallback chain at a concrete input. -/
def envC5 : InstallEnv where
  directInstallTl := true
  nestedInstallTl := false
  installerOutcome := .exited 0 "" ""
  probe1 := .exited 1 "" ""
  fs := fun _ => ⟨false, []⟩
  tlmgrBinDir := some "/bd"
  tlmgrAddOutcome := .notFound
  probe2 := .exited 1 "" ""
  srcEntries := [⟨"a", true⟩]
  linkFail := fun _ => true
  dest := ⟨false, []⟩
  probe3 := .exited 1 "" ""

theorem c5_partial_symlink_failure_witness :
    (symlink_binaries "/bd" [⟨"a", true⟩, ⟨"b", true⟩] (fun n => n == "a")
        ⟨false, []⟩).1 = false ∧
    lookupEntry (symlink_binaries "/bd" [⟨"a", true⟩, ⟨"b", true⟩] (fun n => n == "a")
        ⟨false, []⟩).2 "b" = some (.symlink ("/bd" ++ "/" ++ "b")) ∧
    (run_install "latest" "texlive.profile" "https://m" "ftp://a" "/w"
        { envC5 with probe3 := .exited 0 "" "" }).result = .exit 1 :=
  have h := c5_partial_symlink_failure "/bd" [⟨"a", true⟩, ⟨"b", true⟩]
    (fun n => n == "a") ⟨false, []⟩
    "latest" "texlive.profile" "https://m" "ftp://a" "/w" envC5 "/bd"
  ⟨h.1.mpr ⟨⟨"a", true⟩, by decide, rfl, rfl⟩,
   h.2.1 ⟨"b", true⟩ (by decide) rfl rfl,
   h.2.2 ⟨"", "", rfl⟩ rfl rfl (Or.inl rfl) rfl (.exited 0 "" "")⟩

/-! ### Claim theorems: entry-point location and process runner -/

/-- C6: when the working directory contains neither a regular file
`install-tl` nor a regular file `install-tl/install-tl`, the install
operation terminates with exit code 1 with an empty subprocess trace (no
subprocess invocation attempted); when the direct file exists it is preferred
over the nested one, and the nested file is used only when the direct one is
absent. -/
theorem c6_missing_entry_point (v p m am wd : String) (env : InstallEnv) :
    (env.directInstallTl = false → env.nestedInstallTl = false →
      run_install v p m am wd env = ⟨.exit 1, [], env.dest⟩) ∧
    (env.directInstallTl = true →
      locate_install_tl wd env.directInstallTl env.nestedInstallTl =
        .ok (wd ++ "/install-tl")) ∧
    (env.directInstallTl = false → env.nestedInstallTl = true →
      locate_install_tl wd env.directInstallTl env.nestedInstallTl =
        .ok (wd ++ "/install-tl/install-tl")) := by
  refine ⟨fun h1 h2 => ?_, fun h1 => ?_, fun h1 h2 => ?_⟩
  · simp [run_install, locate_install_tl, h1, h2]
  · simp [locate_install_tl, h1]
  · simp [locate_install_tl, h1, h2]

/-- Environment with no installer entry point in the working directory. -/
def envNoEntry : InstallEnv :=
  { envC5 with directInstallTl := false, nestedInstallTl := false }

theorem c6_missing_entry_point_witness :
    run_install "latest" "texlive.profile" "https://m" "ftp://a" "/w" envNoEntry =
      ⟨.exit 1, [], envNoEntry.dest⟩ ∧
    locate_install_tl "/w" envC5.directInstallTl envC5.nestedInstallTl =
      .ok ("/w" ++ "/install-tl") :=
  ⟨(c6_missing_entry_point "latest" "texlive.profile" "https://m" "ftp://a" "/w"
      envNoEntry).1 rfl rfl,
   (c6_missing_entry_point "latest" "texlive.profile" "https://m" "ftp://a" "/w"
      envC5).2.1 rfl⟩

/-- C7: the process runner terminates the current process with status 1 when
the executable cannot be found; with failure-checking enabled, a non-zero
exit code `n` terminates the process with that same code `n`; on success with
output suppression requested, the captured stdout and stderr are returned to
the caller. -/
theorem c7_process_runner (check suppress : Bool) (n : Nat) (out err : String) :
    run_subprocess .notFound check suppress = .error 1 ∧
    (n ≠ 0 → run_subprocess (.exited n out err) true suppress = .error n) ∧
    run_subprocess (.exited 0 out err) check true = .ok ⟨0, some out, some err⟩ := by
  refine ⟨rfl, fun h => ?_, ?_⟩
  · simp [run_subprocess, h]
  · simp [run_subprocess]

theorem c7_process_runner_witness :
    run_subprocess .notFound true true = .error 1 ∧
    run_subprocess (.exited 3 "boom" "") true true = .error 3 ∧
    run_subprocess (.exited 0 "TeX 3.14" "") true true = .ok ⟨0, some "TeX 3.14", some ""⟩ :=
  have h := c7_process_runner true true 3 "boom" ""
  have h0 := c7_process_runner true true 3 "TeX 3.14" ""
  ⟨h.1, h.2.1 (by decide), h0.2.2⟩

/-! ### Claim theorems: the install fallback chain -/

theorem run_install_probes_exhausted (v p m am wd : String) (env : InstallEnv)
    (out err : String) (hio : env.installerOutcome = .exited 0 out err)
    (hp1 : check_path env.probe1 = false) (hp2 : check_path env.probe2 = false)
    (hp3 : check_path env.probe3 = false) :
    (run_install v p m am wd env).result = .exit 1 := by
  cases hd : env.directInstallTl <;> cases hnn : env.nestedInstallTl
  all_goals
    cases hres : resolve_texlive_bin_dir env.fs env.tlmgrBinDir with
    | none => simp [run_install, locate_install_tl, hd, hnn, run_subprocess, hio, hp1, hres]
    | some bd =>
      cases htl : tlmgr_path_add env.tlmgrAddOutcome <;>
      cases hsym : (symlink_binaries bd env.srcEntries env.linkFail env.dest).1 <;>
      simp [run_install, locate_install_tl, hd, hnn, run_subprocess, hio, hp1, hres,
        htl, hp2, hp3, symlinkStage, hsym]

/-- C3: assuming the installer subprocess itself succeeded, if the first PATH
probe fails then the install exits with status 1 both when no candidate
binary directory can be discovered and when the probes after the two
fallbacks also fail; and the install returns success only when some probe run
succeeded. -/
theorem c3_path_visibility_exhaustion (v p m am wd : String) (env : InstallEnv)
    (hio : ∃ out err, env.installerOutcome = .exited 0 out err) :
    (check_path env.probe1 = false →
      (resolve_texlive_bin_dir env.fs env.tlmgrBinDir = none →
        (run_install v p m am wd env).result = .exit 1) ∧
      (check_path env.probe2 = false → check_path env.probe3 = false →
        (run_install v p m am wd env).result = .exit 1)) ∧
    ((run_install v p m am wd env).result = .success →
      check_path env.probe1 = true ∨ check_path env.probe2 = true ∨
        check_path env.probe3 = true) := by
  obtain ⟨out, err, hio⟩ := hio
  constructor
  · intro hp1
    constructor
    · intro hres
      cases hd : env.directInstallTl <;> cases hnn : env.nestedInstallTl <;>
        simp [run_install, locate_install_tl, hd, hnn, run_subprocess, hio, hp1, hres]
    · intro hp2 hp3
      exact run_install_probes_exhausted v p m am wd env out err hio hp1 hp2 hp3
  · intro hs
    by_cases h1 : check_path env.probe1 = true
    · exact Or.inl h1
    by_cases h2 : check_path env.probe2 = true
    · exact Or.inr (Or.inl h2)
    by_cases h3 : check_path env.probe3 = true
    · exact Or.inr (Or.inr h3)
    have hp1 : check_path env.probe1 = false := by simpa using h1
    have hp2 : check_path env.probe2 = false := by simpa using h2
    have hp3 : check_path env.probe3 = false := by simpa using h3
    exact absurd
      ((run_install_probes_exhausted v p m am wd env out err hio hp1 hp2 hp3).symm.trans hs)
      (by simp)

/-- Environment where discovery finds nothing and the vendor-tool strategy
also fails. -/
def envNoBinDir : InstallEnv :=
  { envC5 with tlmgrBinDir := none }

theorem c3_path_visibility_exhaustion_witness :
    (run_install "latest" "texlive.profile" "https://m" "ftp://a" "/w" envNoBinDir).result =
      .exit 1 ∧
    (run_install "latest" "texlive.profile" "https://m" "ftp://a" "/w" envC5).result =
      .exit 1 :=
  ⟨((c3_path_visibility_exhaustion "latest" "texlive.profile" "https://m" "ftp://a" "/w"
      envNoBinDir ⟨"", "", rfl⟩).1 rfl).1 rfl,
   ((c3_path_visibility_exhaustion "latest" "texlive.profile" "https://m" "ftp://a" "/w"
      envC5 ⟨"", "", rfl⟩).1 rfl).2 rfl rfl⟩

theorem symlinkStage_result (env : InstallEnv) (bd : String) (tr : List (List String)) :
    (symlinkStage env bd tr).result =
      if ((symlink_binaries bd env.srcEntries env.linkFail env.dest).1 &&
          check_path env.probe3) = true then .success else .exit 1 := by
  cases hsym : (symlink_binaries bd env.srcEntries env.linkFail env.dest).1 <;>
    cases hp3 : check_path env.probe3 <;> simp [symlinkStage, hsym, hp3]

/-- Environment where `tlmgr path add` exits non-zero but the subsequent
probe succeeds. -/
def envTlmgrNonzero : InstallEnv :=
  { envC5 with tlmgrAddOutcome := .exited 2 "" "", probe2 := .exited 0 "" "" }

/-- C9 counterexample: `tlmgr path add` exiting with the non-zero code 2 is
an invocation failure in the claim's sense, yet the code (which invokes it
with failure-checking disabled) treats the step as successful; with the
subsequent re-verification probe succeeding, the install returns success and
the manual symlink fallback is never executed — the destination state is
untouched (in particular the destination directory is never created) even
though the source listing contains a linkable file.  This contradicts the
claim that control falls through to the manual symlink fallback whenever the
invocation fails. -/
theorem c9_counterexample :
    tlmgr_path_add (ProcOutcome.exited 2 "" "") = true ∧
    check_path envTlmgrNonzero.probe1 = false ∧
    resolve_texlive_bin_dir envTlmgrNonzero.fs envTlmgrNonzero.tlmgrBinDir = some "/bd" ∧
    (run_install "latest" "texlive.profile" "https://m" "ftp://a" "/w"
      envTlmgrNonzero).result = .success ∧
    (run_install "latest" "texlive.profile" "https://m" "ftp://a" "/w"
      envTlmgrNonzero).dest = envTlmgrNonzero.dest ∧
    envTlmgrNonzero.dest.destExists = false ∧
    envTlmgrNonzero.srcEntries = [⟨"a", true⟩] := by
  refine ⟨rfl, rfl, rfl, rfl, rfl, rfl, rfl⟩

/-- C9 (amended): a failure of the vendor path-add step is never fatal.  The
step is treated as failed only when the `tlmgr` executable is absent
(failure-checking is disabled, so a non-zero exit is treated as success);
whenever the step is treated as failed, or it is treated as successful but
the subsequent re-verification probe fails, control falls through to the
manual symlink fallback instead of terminating the process: the overall
result is then exactly the symlink-stage result (success iff linking
succeeded and the final probe succeeds, exit 1 otherwise). -/
theorem c9_tlmgr_nonfatal (v p m am wd : String) (env : InstallEnv) (bd : String) :
    tlmgr_path_add .notFound = false ∧
    (∀ n o e, tlmgr_path_add (.exited n o e) = true) ∧
    ((env.directInstallTl = true ∨ env.nestedInstallTl = true) →
      (∃ out err, env.installerOutcome = .exited 0 out err) →
      check_path env.probe1 = false →
      resolve_texlive_bin_dir env.fs env.tlmgrBinDir = some bd →
      (tlmgr_path_add env.tlmgrAddOutcome = false ∨ check_path env.probe2 = false) →
      (run_install v p m am wd env).result =
        if ((symlink_binaries bd env.srcEntries env.linkFail env.dest).1 &&
            check_path env.probe3) = true then .success else .exit 1) := by
  refine ⟨rfl, fun n o e => rfl, ?_⟩
  rintro hloc ⟨out, err, hio⟩ hp1 hres hfall
  have hstage := symlinkStage_result env bd
  rcases hfall with htl | hp2
  · rcases hloc with hd | hnn
    · cases hnn : env.nestedInstallTl <;>
        simp [run_install, locate_install_tl, hd, hnn, run_subprocess, hio, hp1, hres,
          htl, hstage]
    · cases hd : env.directInstallTl <;>
        simp [run_install, locate_install_tl, hd, hnn, run_subprocess, hio, hp1, hres,
          htl, hstage]
  · rcases hloc with hd | hnn
    · cases hnn : env.nestedInstallTl <;>
        cases htl : tlmgr_path_add env.tlmgrAddOutcome <;>
        simp [run_install, locate_install_tl, hd, hnn, run_subprocess, hio, hp1, hres,
          htl, hp2, hstage]
    · cases hd : env.directInstallTl <;>
        cases htl : tlmgr_path_add env.tlmgrAddOutcome <;>
        simp [run_install, locate_install_tl, hd, hnn, run_subprocess, hio, hp1, hres,
          htl, hp2, hstage]

theorem c9_tlmgr_nonfatal_witness :
    (run_install "latest" "texlive.profile" "https://m" "ftp://a" "/w" envC5).result =
      if ((symlink_binaries "/bd" envC5.srcEntries envC5.linkFail envC5.dest).1 &&
          check_path envC5.probe3) = true then .success else .exit 1 :=
  (c9_tlmgr_nonfatal "latest" "texlive.profile" "https://m" "ftp://a" "/w" envC5
    "/bd").2.2 (Or.inl rfl) ⟨"", "", rfl⟩ rfl rfl (Or.inl rfl)

/-! ### Claim theorems: binary-directory discovery -/

theorem sortedEntriesDesc_pairwise (es : List VersionEntry) :
    (sortedEntriesDesc es).Pairwise (fun a b => b.name ≤ a.name) := by
  have h := @List.sorted_mergeSort VersionEntry
    (fun a b => decide (b.name ≤ a.name))
    (fun a b c h1 h2 =>
      decide_eq_true (le_trans (of_decide_eq_true h2) (of_decide_eq_true h1)))
    (fun a b => by rcases le_total b.name a.name with h | h <;> simp [h]) es
  exact h.imp fun hab => of_decide_eq_true hab

/-- C8: discovery scans the fixed ordered root list
`/usr/local/texlive`, `/opt/texlive`; within each existing root the version
entries are iterated in reverse lexicographic order (the iterated order is
pairwise descending on names); the resolver returns the first candidate of
the scan whenever the scan yields one — the vendor-tool strategy is not
consulted — and returns the vendor-tool result (in particular "not found"
when that is also empty) when the scan is exhausted, without terminating the
process. -/
theorem c8_bin_dir_discovery (fs : String → RootDir) (tl : Option String) :
    iter_candidate_bin_dirs fs =
      candidatesInRoot "/usr/local/texlive" (fs "/usr/local/texlive") ++
        candidatesInRoot "/opt/texlive" (fs "/opt/texlive") ∧
    (∀ c rest, iter_candidate_bin_dirs fs = c :: rest →
      resolve_texlive_bin_dir fs tl = some c) ∧
    (iter_candidate_bin_dirs fs = [] → resolve_texlive_bin_dir fs tl = tl) ∧
    (∀ es, (sortedEntriesDesc es).Pairwise (fun a b => b.name ≤ a.name)) := by
  refine ⟨?_, ?_, ?_, fun es => sortedEntriesDesc_pairwise es⟩
  · simp [iter_candidate_bin_dirs, KNOWN_TEXLIVE_ROOTS]
  · intro c rest h; simp [resolve_texlive_bin_dir, h]
  · intro h; simp [resolve_texlive_bin_dir, h]

/-- Discovery filesystem oracle with one populated root. -/
def fsOneRoot : String → RootDir := fun r =>
  if r = "/usr/local/texlive" then
    ⟨true, [⟨"2024", true, [⟨"i386-linux", false⟩, ⟨"x86_64-linux", true⟩]⟩]⟩
  else ⟨false, []⟩

theorem c8_bin_dir_discovery_witness :
    resolve_texlive_bin_dir fsOneRoot none =
      some ("/usr/local/texlive" ++ "/" ++ "2024" ++ "/bin/" ++ "x86_64-linux") ∧
    resolve_texlive_bin_dir (fun _ => ⟨false, []⟩) (some "/from-tlmgr") =
      some "/from-tlmgr" :=
  ⟨(c8_bin_dir_discovery fsOneRoot none).2.1
      ("/usr/local/texlive" ++ "/" ++ "2024" ++ "/bin/" ++ "x86_64-linux") []
      (by simp [iter_candidate_bin_dirs, KNOWN_TEXLIVE_ROOTS, fsOneRoot,
        candidatesInRoot, sortedEntriesDesc, candidatesInEntry]),
   (c8_bin_dir_discovery (fun _ => ⟨false, []⟩) (some "/from-tlmgr")).2.2.1
      (by simp [iter_candidate_bin_dirs, KNOWN_TEXLIVE_ROOTS, candidatesInRoot])⟩

end TexliveScript
